import Mathlib

/-!
# Verification of the webtoon service (`src/server.js`)

Shallow embedding of the authentication / access-control core of the
Express-based webtoon service: the credential store and the `/register`
and `/login` handlers, the `authenticateJWT` middleware, the protected
resource routes, and the request-rate admission gate.

Conventions of the embedding:
* JavaScript strings are Lean `String`s; `String.prototype.split(' ')`
  is modelled by `splitChars` on the underlying character list, which has
  exactly the JavaScript semantics (`""` splits to `[""]`, separators at
  the ends produce empty parts, and out-of-range indexing yields `none`).
* Times are natural numbers (milliseconds for the rate limiter, seconds
  for token expiry, matching the units each library uses).
* The external collaborators (bcryptjs, jsonwebtoken, express-rate-limit,
  the mongoose document store) are not part of `src/`; their behavior is
  modelled from the spec's contracts for them, as noted on each definition.
-/

namespace WebtoonService

/-- JavaScript `s.split(sep)` on character lists: splitting never returns
an empty list; an input without separators returns the singleton list of
the whole input. -/
def splitChars (sep : Char) : List Char → List (List Char)
  | [] => [[]]
  | c :: cs =>
    if c = sep then [] :: splitChars sep cs
    else
      match splitChars sep cs with
      | [] => [[c]]
      | p :: ps => (c :: p) :: ps

/-- JavaScript `s.split(' ')` as used by `authenticateJWT` (server.js:49). -/
def jsSplitSpace (s : String) : List String :=
  (splitChars ' ' s.data).map String.mk

/-- The process-wide signing secret (server.js:13). -/
def JWT_SECRET : String := "my-secret-key"

/-- A decoded JWT payload. The service only ever signs `{ username }`
objects, but a payload may lack the field (relevant to what the
middleware checks). -/
structure JwtPayload where
  username : Option String
deriving DecidableEq

/-- Modelled from the spec: the Token Service (§4.3) is the external
jsonwebtoken library. A signed token is self-contained: it carries its
payload, issued-at and absolute expiry timestamps, and the secret it was
signed with (standing for the signature: verification with a secret
succeeds exactly when it equals the signing secret). -/
structure Token where
  payload : JwtPayload
  iat : Nat
  exp : Nat
  secret : String
deriving DecidableEq

/-- Modelled from the spec: `jwt.sign(payload, secret, \x7b expiresIn \x7d)`
produces a token whose expiry is issuance time plus the time-to-live
(server.js:88, server.js:110 use `expiresIn: '1h'`, i.e. 3600 seconds). -/
def jwtSign (payload : JwtPayload) (secret : String) (now expiresInSec : Nat) : Token :=
  { payload := payload, iat := now, exp := now + expiresInSec, secret := secret }

/-- Modelled from the spec: `jwt.verify` succeeds iff the signature
validates (the verifying secret equals the signing secret) and the
current time has not reached the embedded expiry; jsonwebtoken rejects
exactly when `now ≥ exp`. The payload content is not inspected. -/
def jwtVerify (t : Token) (secret : String) (now : Nat) : Option JwtPayload :=
  if t.secret = secret ∧ now < t.exp then some t.payload else none

/-- Payload segment of the wire format: `"_"` is a payload without a
username field, `'u'` followed by the name is a payload with one. -/
def decodePayloadChars : List Char → Option JwtPayload
  | ['_'] => some ⟨none⟩
  | 'u' :: rest => some ⟨some (String.mk rest)⟩
  | _ => none

/-- Decimal digits to a number, accumulator style; fails on a non-digit. -/
def parseDigits : List Char → Nat → Option Nat
  | [], acc => some acc
  | c :: cs, acc =>
    if c.isDigit then parseDigits cs (acc * 10 + (c.toNat - 48))
    else none

/-- A non-empty all-digit character list as a number. -/
def parseNatChars : List Char → Option Nat
  | [] => none
  | cs => parseDigits cs 0

/-- Modelled from the spec: parsing a candidate token string. A string
that is not a well-formed serialized token (in particular any string
containing a space, which the dot-separated compact serialization
forbids) fails to parse, and `jwt.verify` on it throws — a token "with no
discernible structure must fail the same way as a structurally
valid-but-badly-signed token" (§4.3). -/
def decodeToken (s : String) : Option Token :=
  if s.data.any (fun c => c == ' ') then none
  else
    match splitChars '.' s.data with
    | [p, i, e, sec] =>
      match decodePayloadChars p, parseNatChars i, parseNatChars e with
      | some payload, some iat, some exp =>
        some { payload := payload, iat := iat, exp := exp, secret := String.mk sec }
      | _, _, _ => none
    | _ => none

/-- `jwt.verify` on a raw string: parse, then verify (server.js:52). -/
def jwtVerifyStr (s secret : String) (now : Nat) : Option JwtPayload :=
  match decodeToken s with
  | none => none
  | some t => jwtVerify t secret now

/-- Outcome of the `authenticateJWT` middleware: either `next()` is called
with `req.user` attached, or a response is sent. -/
inductive AuthResult where
  | proceed (user : JwtPayload) : AuthResult
  | reject (status : Nat) (error : String) : AuthResult
deriving DecidableEq

/-- The `authenticateJWT` middleware (server.js:44-58). It reads the
`Authorization` header, takes element 1 of its split on spaces, and
verifies that string. Every failure — missing header (`token.split`
throws on `undefined`), no second part (`jwt.verify(undefined)` throws),
or verification failure — is caught by the single `catch` block and
answered with `400 \x7b error: 'Invalid token provided' \x7d`. -/
def authenticateJWT (authHeader : Option String) (now : Nat) : AuthResult :=
  match authHeader with
  | none => .reject 400 "Invalid token provided"
  | some token =>
    match (jsSplitSpace token)[1]? with
    | none => .reject 400 "Invalid token provided"
    | some extractedToken =>
      match jwtVerifyStr extractedToken JWT_SECRET now with
      | none => .reject 400 "Invalid token provided"
      | some verified => .proceed verified

/-- Modelled from the spec: the Password Hasher (§4.2) is the external
bcryptjs library. A hash is an opaque value recording the fresh salt and
the hashed plaintext; `verify` "recomputes using the embedded salt and
compares". Distinct salts give distinct hashes for the same plaintext. -/
structure BcryptHash where
  salt : Nat
  input : String
deriving DecidableEq

/-- Modelled from the spec: `bcrypt.hash(plaintext, 10)` with a fresh
salt (server.js:81). -/
def bcryptHash (plaintext : String) (salt : Nat) : BcryptHash :=
  { salt := salt, input := plaintext }

/-- Modelled from the spec: `bcrypt.compare` recomputes with the embedded
salt and compares (server.js:104). -/
def bcryptCompare (plaintext : String) (h : BcryptHash) : Bool :=
  plaintext == h.input

/-- An entry of the in-memory `users` array (server.js:16): the JS object
`\x7b username, password: hashedPassword \x7d` pushed by `/register`. -/
structure User where
  username : String
  password : BcryptHash
deriving DecidableEq

/-- Response of the `/register` and `/login` handlers: `res.json` on
success (HTTP 200) with a message and the signed token, or
`res.status(st).json(\x7b error \x7d)` on failure. -/
inductive AuthResponse where
  | ok (message : String) (token : Token) : AuthResponse
  | err (status : Nat) (error : String) : AuthResponse
deriving DecidableEq

/-- The `POST /register` handler (server.js:71-91). `salt` is the fresh
salt bcrypt draws for this call; `now` the issuance time. Returns the
`users` array after the call together with the response. -/
def register (users : List User) (username password : String) (salt now : Nat) :
    List User × AuthResponse :=
  match users.find? (fun u => u.username == username) with
  | some _ => (users, .err 400 "User already exists")
  | none =>
    let hashedPassword := bcryptHash password salt
    let newUser : User := { username := username, password := hashedPassword }
    let token := jwtSign ⟨some newUser.username⟩ JWT_SECRET now 3600
    (users ++ [newUser], .ok "User registered successfully" token)

/-- The `POST /login` handler (server.js:94-113). -/
def login (users : List User) (username password : String) (now : Nat) :
    List User × AuthResponse :=
  match users.find? (fun u => u.username == username) with
  | none => (users, .err 400 "Invalid credentials")
  | some user =>
    if bcryptCompare password user.password then
      (users, .ok "Logged in successfully" (jwtSign ⟨some user.username⟩ JWT_SECRET now 3600))
    else
      (users, .err 400 "Invalid credentials")

/-- A stored webtoon document (schema at server.js:35-39), with the id
mongoose generates for it. -/
structure Webtoon where
  id : String
  title : String
  description : String
  characters : Option String
deriving DecidableEq

/-- Modelled from the spec: the id strings the document store's id type
accepts (mongoose `ObjectId` casting: a 12-character string or a
24-character hexadecimal string). Any other string makes `findById` /
`findByIdAndDelete` throw a `CastError`. -/
def isValidObjectId (s : String) : Bool :=
  s.length == 12 ||
    (s.length == 24 && s.data.all (fun c =>
      c.isDigit || ('a' ≤ c && c ≤ 'f') || ('A' ≤ c && c ≤ 'F')))

/-- Modelled from the spec: `Webtoon.findById` on the external document
store — a cast error for unacceptable ids, otherwise a lookup with no
side effects. -/
def findById (store : List Webtoon) (id : String) : Except String (Option Webtoon) :=
  if isValidObjectId id then .ok (store.find? (fun w => w.id == id))
  else .error "CastError"

/-- Outcome of `GET /webtoons/:id`. -/
inductive GetWebtoonResult where
  | ok (w : Webtoon) : GetWebtoonResult
  | notFound : GetWebtoonResult
  | storeError (message : String) : GetWebtoonResult
deriving DecidableEq

/-- The `GET /webtoons/:id` handler (server.js:129-137): a thrown store
error is caught and answered 500; a missing document is answered
`404 \x7b error: 'Webtoon not found' \x7d`. -/
def getWebtoonById (store : List Webtoon) (id : String) : GetWebtoonResult :=
  match findById store id with
  | .error msg => .storeError msg
  | .ok none => .notFound
  | .ok (some w) => .ok w

/-- Outcome of `POST /webtoons`. -/
inductive PostResult where
  | created (w : Webtoon) : PostResult
  | authErr (status : Nat) (error : String) : PostResult
deriving DecidableEq

/-- The `POST /webtoons` route (server.js:140-154): `authenticateJWT`,
then `validateWebtoon`, then insertion. The embedding models a request
whose `title` and `description` body fields are present strings, so the
validators (server.js:61-65) pass; `req.user` is never read by the
handler. `newId` is the id mongoose generates on save. -/
def postWebtoonsRoute (authHeader : Option String) (now : Nat) (store : List Webtoon)
    (newId title description : String) (characters : Option String) :
    List Webtoon × PostResult :=
  match authenticateJWT authHeader now with
  | .reject st e => (store, .authErr st e)
  | .proceed _ =>
    let w : Webtoon :=
      { id := newId, title := title, description := description, characters := characters }
    (store ++ [w], .created w)

/-- Outcome of `DELETE /webtoons/:id`. -/
inductive DeleteResult where
  | deleted (message : String) : DeleteResult
  | notFound : DeleteResult
  | authErr (status : Nat) (error : String) : DeleteResult
  | storeError (message : String) : DeleteResult
deriving DecidableEq

/-- The `DELETE /webtoons/:id` route (server.js:157-165):
`authenticateJWT`, then `findByIdAndDelete` with 404 when absent. -/
def deleteWebtoonsRoute (authHeader : Option String) (now : Nat) (store : List Webtoon)
    (id : String) : List Webtoon × DeleteResult :=
  match authenticateJWT authHeader now with
  | .reject st e => (store, .authErr st e)
  | .proceed _ =>
    match findById store id with
    | .error msg => (store, .storeError msg)
    | .ok none => (store, .notFound)
    | .ok (some _) =>
      (store.eraseP (fun w => w.id == id), .deleted "Webtoon deleted successfully")

/-- The admission-gate tracking entry for one client origin (§4.4):
`\x7b count, windowStart \x7d`. -/
structure RateEntry where
  count : Nat
  windowStart : Nat
deriving DecidableEq

/-- `windowMs: 15 * 60 * 1000` (server.js:20), in milliseconds. -/
def windowMs : Nat := 15 * 60 * 1000

/-- `max: 100` (server.js:21). -/
def maxRequests : Nat := 100

/-- Modelled from the spec: the Admission Gate's transition on each
incoming request from one origin (§4.4; the limiter itself lives in the
external express-rate-limit library, configured at server.js:19-23).
If no tracking entry exists or the window has elapsed since
`windowStart`, reset to `count = 1, windowStart = now` and admit; else
increment `count`, rejecting with `TooManyRequests` when it exceeds the
ceiling. Returns the new entry and whether the request is admitted. -/
def rateLimitStep (st : Option RateEntry) (now : Nat) : Option RateEntry × Bool :=
  match st with
  | none => (some { count := 1, windowStart := now }, true)
  | some e =>
    if e.windowStart + windowMs ≤ now then
      (some { count := 1, windowStart := now }, true)
    else
      let c := e.count + 1
      (some { count := c, windowStart := e.windowStart }, !(maxRequests < c))

/-- Fold `rateLimitStep` over a list of request times from one origin,
collecting the admission decisions in order. -/
def runRequests (st : Option RateEntry) : List Nat → Option RateEntry × List Bool
  | [] => (st, [])
  | t :: ts =>
    let first := rateLimitStep st t
    let rest := runRequests first.1 ts
    (rest.1, first.2 :: rest.2)

set_option maxRecDepth 8000

/-! ## Helper lemmas -/

theorem splitChars_no_sep (sep : Char) (l : List Char) (h : ∀ c ∈ l, c ≠ sep) :
    splitChars sep l = [l] := by
  induction l with
  | nil => rfl
  | cons c cs ih =>
    have hc : c ≠ sep := h c (List.mem_cons_self c cs)
    have ih2 : splitChars sep cs = [cs] := ih fun x hx => h x (List.mem_cons_of_mem c hx)
    simp [splitChars, hc, ih2]

theorem splitChars_sep_cons (sep : Char) (l1 l2 : List Char) (h : ∀ c ∈ l1, c ≠ sep) :
    splitChars sep (l1 ++ sep :: l2) = l1 :: splitChars sep l2 := by
  induction l1 with
  | nil => simp [splitChars]
  | cons c cs ih =>
    have hc : c ≠ sep := h c (List.mem_cons_self c cs)
    have ih2 := ih fun x hx => h x (List.mem_cons_of_mem c hx)
    simp [splitChars, hc, ih2]

theorem jsSplitSpace_scheme (scheme s : String)
    (h1 : ∀ c ∈ scheme.data, c ≠ ' ') (h2 : ∀ c ∈ s.data, c ≠ ' ') :
    jsSplitSpace (scheme ++ " " ++ s) = [scheme, s] := by
  have hd : (scheme ++ " " ++ s).data = scheme.data ++ ' ' :: s.data := by
    simp [String.data_append]
  rw [jsSplitSpace, hd, splitChars_sep_cons _ _ _ h1, splitChars_no_sep _ _ h2]
  rfl

theorem decodeToken_no_space (s : String) (t : Token) (h : decodeToken s = some t) :
    ∀ c ∈ s.data, c ≠ ' ' := by
  intro c hc hceq
  subst hceq
  have hb : s.data.any (fun c => c == ' ') = true :=
    List.any_eq_true.mpr ⟨' ', hc, by simp⟩
  simp [decodeToken, hb] at h

theorem authenticateJWT_accepts (scheme s : String) (t : Token) (now : Nat)
    (hscheme : ∀ c ∈ scheme.data, c ≠ ' ')
    (hdec : decodeToken s = some t)
    (hsec : t.secret = JWT_SECRET) (hexp : now < t.exp) :
    authenticateJWT (some (scheme ++ " " ++ s)) now = .proceed t.payload := by
  have hs := decodeToken_no_space s t hdec
  simp [authenticateJWT, jsSplitSpace_scheme scheme s hscheme hs,
    jwtVerifyStr, hdec, jwtVerify, hsec, hexp]

/-! ## Claims -/

/-- C1, counterexample: a request with no Authorization header is rejected
with exactly the same status and body as a request whose header carries a
structurally valid token that fails verification (wrong signing secret) —
the middleware has no `MalformedCredential` error distinct from the
`InvalidToken` one. -/
theorem c1_counterexample :
    jwtVerifyStr "ua.0.3600.wrong-key" JWT_SECRET 0 = none ∧
    authenticateJWT (some "Bearer ua.0.3600.wrong-key") 0 =
      .reject 400 "Invalid token provided" ∧
    authenticateJWT none 0 = authenticateJWT (some "Bearer ua.0.3600.wrong-key") 0 := by
  exact ⟨by decide, by decide, by decide⟩

/-- C1, amended: every request to a protected operation (POST /webtoons,
DELETE /webtoons/:id) without an Authorization header is rejected, but
with the single uniform response `400 'Invalid token provided'` — the
very response produced when token verification fails; the middleware
never produces any other rejection, so no distinct MalformedCredential
error exists. -/
theorem c1_auth_failures_uniform (now : Nat) (hdr : Option String)
    (store : List Webtoon) (newId title description : String)
    (characters : Option String) (id : String) :
    authenticateJWT none now = .reject 400 "Invalid token provided" ∧
    ((∃ p, authenticateJWT hdr now = .proceed p) ∨
      authenticateJWT hdr now = .reject 400 "Invalid token provided") ∧
    postWebtoonsRoute none now store newId title description characters =
      (store, .authErr 400 "Invalid token provided") ∧
    deleteWebtoonsRoute none now store id =
      (store, .authErr 400 "Invalid token provided") := by
  refine ⟨rfl, ?_, rfl, rfl⟩
  cases hdr with
  | none => exact Or.inr rfl
  | some token =>
    cases hv : (jsSplitSpace token)[1]? with
    | none => exact Or.inr (by simp [authenticateJWT, hv])
    | some extracted =>
      cases hw : jwtVerifyStr extracted JWT_SECRET now with
      | none => exact Or.inr (by simp [authenticateJWT, hv, hw])
      | some v => exact Or.inl ⟨v, by simp [authenticateJWT, hv, hw]⟩

/-- C2, counterexample: a header whose first space-separated part is
`NotBearer` (not the literal `Bearer`), followed by a validly signed,
unexpired token, is accepted by the middleware — refuting that every
non-`Bearer` scheme is rejected. -/
theorem c2_counterexample :
    decodeToken "ua.0.3600.my-secret-key" =
      some { payload := ⟨some "a"⟩, iat := 0, exp := 3600, secret := JWT_SECRET } ∧
    authenticateJWT (some "NotBearer ua.0.3600.my-secret-key") 0 =
      .proceed ⟨some "a"⟩ := by
  exact ⟨by decide, by decide⟩

/-- C2, amended: the middleware never inspects the scheme part of the
Authorization header: a request whose header's first space-separated part
is ANY space-free string — `Bearer` or not — is accepted whenever the
part after the first space is a validly signed, unexpired token. -/
theorem c2_scheme_ignored (scheme s : String) (t : Token) (now : Nat)
    (hscheme : ∀ c ∈ scheme.data, c ≠ ' ')
    (hdec : decodeToken s = some t)
    (hsec : t.secret = JWT_SECRET) (hexp : now < t.exp) :
    authenticateJWT (some (scheme ++ " " ++ s)) now = .proceed t.payload :=
  authenticateJWT_accepts scheme s t now hscheme hdec hsec hexp

/-- C2, witness: the amended theorem applied to the scheme `NotBearer`
and a concrete valid token. -/
theorem c2_scheme_ignored_witness :
    authenticateJWT (some ("NotBearer" ++ " " ++ "ua.0.3600.my-secret-key")) 0 =
      .proceed ⟨some "a"⟩ :=
  c2_scheme_ignored "NotBearer" "ua.0.3600.my-secret-key"
    { payload := ⟨some "a"⟩, iat := 0, exp := 3600, secret := "my-secret-key" } 0
    (by decide) (by decide) rfl (by decide)

/-- C3, counterexample: the id `"x"` exists in no store (here the empty
store), yet `GET /webtoons/x` answers with the 500 store error produced
by the id-cast failure, not with 404 NotFound. -/
theorem c3_counterexample :
    getWebtoonById [] "x" = .storeError "CastError" ∧
    getWebtoonById [] "x" ≠ .notFound := by
  exact ⟨by decide, by decide⟩

/-- C3, amended: for every id whose shape the store's id type accepts and
for which no resource exists, `GET /webtoons/:id` fails with 404
NotFound; an id whose shape the id type does not accept instead yields
the 500 store-error response. -/
theorem c3_get_by_id (store : List Webtoon) (id : String) :
    (isValidObjectId id = true → store.find? (fun w => w.id == id) = none →
      getWebtoonById store id = .notFound) ∧
    (isValidObjectId id = false → getWebtoonById store id = .storeError "CastError") := by
  constructor
  · intro hv hf
    simp [getWebtoonById, findById, hv, hf]
  · intro hv
    simp [getWebtoonById, findById, hv]

/-- C3, witness: the amended theorem at a valid-shape absent id and at an
invalid-shape id. -/
theorem c3_get_by_id_witness :
    getWebtoonById [] "0123456789ab" = .notFound ∧
    getWebtoonById [] "not-an-obj-id!" = .storeError "CastError" :=
  ⟨(c3_get_by_id [] "0123456789ab").1 (by decide) (by decide),
   (c3_get_by_id [] "not-an-obj-id!").2 (by decide)⟩

/-- C4: registering a username absent from the store succeeds (200 with a
token), and a subsequent `register` of the same username — whatever the
password, salt or time — fails with the DuplicateIdentity response
(`400 'User already exists'`), issues no token, and returns the store
unchanged. -/
theorem c4_register_duplicate (users : List User) (U P : String) (salt now : Nat)
    (habsent : users.find? (fun u => u.username == U) = none) :
    register users U P salt now =
      (users ++ [{ username := U, password := bcryptHash P salt }],
        .ok "User registered successfully" (jwtSign ⟨some U⟩ JWT_SECRET now 3600)) ∧
    ∀ P2 salt2 now2,
      register (users ++ [{ username := U, password := bcryptHash P salt }]) U P2 salt2 now2 =
        (users ++ [{ username := U, password := bcryptHash P salt }],
          .err 400 "User already exists") := by
  constructor
  · simp [register, habsent]
  · intro P2 salt2 now2
    simp [register, List.find?_append, habsent]

/-- C4, witness: a fresh registration of `"a"` succeeds; re-registering
`"a"` with a different password, salt and time fails with
`400 'User already exists'` and leaves the store as it was. -/
theorem c4_register_duplicate_witness :
    register [] "a" "p" 0 0 =
      ([{ username := "a", password := bcryptHash "p" 0 }],
        .ok "User registered successfully" (jwtSign ⟨some "a"⟩ JWT_SECRET 0 3600)) ∧
    register [{ username := "a", password := bcryptHash "p" 0 }] "a" "q" 1 2 =
      ([{ username := "a", password := bcryptHash "p" 0 }],
        .err 400 "User already exists") :=
  ⟨(c4_register_duplicate [] "a" "p" 0 0 rfl).1,
   (c4_register_duplicate [] "a" "p" 0 0 rfl).2 "q" 1 2⟩

/-- C5: for a stored identity whose hash was computed from password `P`,
`login` with `P` succeeds, returning a token whose verification yields
subject `U`; `login` with any password that does not match the stored
hash fails with `400 'Invalid credentials'`. -/
theorem c5_login_correct (users : List User) (U P : String) (s now : Nat)
    (hfind : users.find? (fun u => u.username == U) =
      some { username := U, password := bcryptHash P s }) :
    (login users U P now =
      (users, .ok "Logged in successfully" (jwtSign ⟨some U⟩ JWT_SECRET now 3600)) ∧
      jwtVerify (jwtSign ⟨some U⟩ JWT_SECRET now 3600) JWT_SECRET now = some ⟨some U⟩) ∧
    ∀ wrongP, bcryptCompare wrongP (bcryptHash P s) = false →
      login users U wrongP now = (users, .err 400 "Invalid credentials") := by
  refine ⟨⟨?_, ?_⟩, ?_⟩
  · simp [login, hfind, bcryptCompare, bcryptHash]
  · have h1 : now < now + 3600 := by omega
    simp [jwtVerify, jwtSign, h1]
  · intro wrongP hw
    simp [login, hfind, hw]

/-- C5, witness: the theorem at the store holding `"a"` with the hash of
`"p"`, logging in with `"p"` (success) and with `"w"` (failure). -/
theorem c5_login_correct_witness :
    (login [{ username := "a", password := bcryptHash "p" 0 }] "a" "p" 0 =
      ([{ username := "a", password := bcryptHash "p" 0 }],
        .ok "Logged in successfully" (jwtSign ⟨some "a"⟩ JWT_SECRET 0 3600)) ∧
      jwtVerify (jwtSign ⟨some "a"⟩ JWT_SECRET 0 3600) JWT_SECRET 0 = some ⟨some "a"⟩) ∧
    login [{ username := "a", password := bcryptHash "p" 0 }] "a" "w" 0 =
      ([{ username := "a", password := bcryptHash "p" 0 }],
        .err 400 "Invalid credentials") :=
  ⟨(c5_login_correct [{ username := "a", password := bcryptHash "p" 0 }] "a" "p" 0 0
      (by decide)).1,
   (c5_login_correct [{ username := "a", password := bcryptHash "p" 0 }] "a" "p" 0 0
      (by decide)).2 "w" (by decide)⟩

/-- C6: a token signed at time `T` with a one-hour time-to-live verifies
successfully (against the signing secret) at every time in
`[T, T + 3600)` and fails to verify at every time `≥ T + 3600`. -/
theorem c6_token_ttl (p : JwtPayload) (secret : String) (T t : Nat) :
    (T ≤ t → t < T + 3600 → jwtVerify (jwtSign p secret T 3600) secret t = some p) ∧
    (T + 3600 ≤ t → jwtVerify (jwtSign p secret T 3600) secret t = none) := by
  constructor
  · intro _ hlt
    simp [jwtSign, jwtVerify, hlt]
  · intro hge
    have hnot : ¬ (t < T + 3600) := by omega
    simp [jwtSign, jwtVerify, hnot]

/-- C6, witness: a token issued at 0 is accepted at 3599 and rejected at
3600 (the boundary of the one-hour window). -/
theorem c6_token_ttl_witness :
    jwtVerify (jwtSign ⟨some "a"⟩ "my-secret-key" 0 3600) "my-secret-key" 3599 =
      some ⟨some "a"⟩ ∧
    jwtVerify (jwtSign ⟨some "a"⟩ "my-secret-key" 0 3600) "my-secret-key" 3600 = none :=
  ⟨(c6_token_ttl ⟨some "a"⟩ "my-secret-key" 0 3599).1 (by decide) (by decide),
   (c6_token_ttl ⟨some "a"⟩ "my-secret-key" 0 3600).2 (by decide)⟩

/-- Processing requests that all fall inside the current window, while
the counter stays within the ceiling, admits every one of them and only
increments the count. -/
theorem runRequests_within_window (ts : List Nat) (t0 : Nat) :
    ∀ c, (∀ t ∈ ts, t < t0 + windowMs) → c + ts.length ≤ maxRequests →
      runRequests (some { count := c, windowStart := t0 }) ts =
        (some { count := c + ts.length, windowStart := t0 },
          List.replicate ts.length true) := by
  induction ts with
  | nil => intro c _ _; simp [runRequests]
  | cons t ts ih =>
    intro c hwin hcap
    have ht : t < t0 + windowMs := hwin t (List.mem_cons_self t ts)
    have hnot : ¬ (t0 + windowMs ≤ t) := by omega
    have hcap2 : (c + 1) + ts.length ≤ maxRequests := by
      simp [List.length_cons] at hcap; omega
    have hc : ¬ (maxRequests < c + 1) := by omega
    have ihr := ih (c + 1) (fun x hx => hwin x (List.mem_cons_of_mem t hx)) hcap2
    simp [runRequests, rateLimitStep, hnot, hc, ihr, List.replicate_succ]
    omega

/-- C7: an origin making exactly 100 requests inside one 15-minute window
has all of them admitted; a 101st request inside the same window is
rejected; a later request made once the window has elapsed is admitted
again (the counter resets). -/
theorem c7_rate_limit_window (t0 : Nat) (ts : List Nat) (t101 tNext : Nat)
    (hlen : ts.length = 99)
    (hwin : ∀ t ∈ ts, t < t0 + windowMs)
    (h101 : t101 < t0 + windowMs)
    (hNext : t0 + windowMs ≤ tNext) :
    (runRequests none (t0 :: ts)).2 = List.replicate 100 true ∧
    (rateLimitStep (runRequests none (t0 :: ts)).1 t101).2 = false ∧
    (rateLimitStep (rateLimitStep (runRequests none (t0 :: ts)).1 t101).1 tNext).2 =
      true := by
  have h1 := runRequests_within_window ts t0 1 hwin (by simp [hlen, maxRequests])
  have hrun : runRequests none (t0 :: ts) =
      (some { count := 100, windowStart := t0 }, List.replicate 100 true) := by
    simp [runRequests, rateLimitStep, h1, hlen, List.replicate_succ]
  rw [hrun]
  have hnot : ¬ (t0 + windowMs ≤ t101) := by omega
  refine ⟨rfl, ?_, ?_⟩
  · simp [rateLimitStep, hnot, maxRequests]
  · simp [rateLimitStep, hnot, hNext, maxRequests]

/-- C7, witness: 100 requests at time 0, a 101st at time 1, and one at
time 900000 (when the 15-minute window has elapsed). -/
theorem c7_rate_limit_window_witness :
    (runRequests none (0 :: List.replicate 99 0)).2 = List.replicate 100 true ∧
    (rateLimitStep (runRequests none (0 :: List.replicate 99 0)).1 1).2 = false ∧
    (rateLimitStep (rateLimitStep (runRequests none (0 :: List.replicate 99 0)).1 1).1
      900000).2 = true :=
  c7_rate_limit_window 0 (List.replicate 99 0) 1 900000
    (by decide) (by decide) (by decide) (by decide)

/-- C8: the login failure for an unregistered username and the login
failure for a registered username with a non-matching password are the
same response — status 400 and body `'Invalid credentials'` — so the two
runs are indistinguishable to the caller. -/
theorem c8_login_failures_indistinguishable
    (users1 : List User) (U1 P1 : String) (now1 : Nat)
    (habsent : users1.find? (fun u => u.username == U1) = none)
    (users2 : List User) (U2 P2 : String) (now2 : Nat) (u : User)
    (hfound : users2.find? (fun u => u.username == U2) = some u)
    (hmismatch : bcryptCompare P2 u.password = false) :
    (login users1 U1 P1 now1).2 = (login users2 U2 P2 now2).2 ∧
    (login users1 U1 P1 now1).2 = .err 400 "Invalid credentials" := by
  have h1 : (login users1 U1 P1 now1).2 = .err 400 "Invalid credentials" := by
    simp [login, habsent]
  have h2 : (login users2 U2 P2 now2).2 = .err 400 "Invalid credentials" := by
    simp [login, hfound, hmismatch]
  exact ⟨h1.trans h2.symm, h1⟩

/-- C8, witness: logging in as the unregistered `"a"` against an empty
store, and as the registered `"b"` with the wrong password `"w"`,
produce the identical error response. -/
theorem c8_login_failures_indistinguishable_witness :
    (login [] "a" "p" 0).2 =
      (login [{ username := "b", password := bcryptHash "p" 0 }] "b" "w" 1).2 ∧
    (login [] "a" "p" 0).2 = .err 400 "Invalid credentials" :=
  c8_login_failures_indistinguishable [] "a" "p" 0 (by decide)
    [{ username := "b", password := bcryptHash "p" 0 }] "b" "w" 1
    { username := "b", password := bcryptHash "p" 0 } (by decide) (by decide)

/-- C9: a token that is signed with the process-wide secret and unexpired
passes `authenticateJWT` even when its payload has no username field, and
the protected `POST /webtoons` operation then executes (the handler never
reads `req.user`). -/
theorem c9_payload_not_inspected (s : String) (t : Token) (now : Nat)
    (hdec : decodeToken s = some t)
    (hsec : t.secret = JWT_SECRET) (hexp : now < t.exp)
    (_hnouser : t.payload.username = none)
    (store : List Webtoon) (newId title description : String)
    (characters : Option String) :
    authenticateJWT (some ("Bearer " ++ s)) now = .proceed t.payload ∧
    postWebtoonsRoute (some ("Bearer " ++ s)) now store newId title description
        characters =
      (store ++ [{ id := newId, title := title, description := description,
                   characters := characters }],
        .created { id := newId, title := title, description := description,
                   characters := characters }) := by
  have hb : ("Bearer " ++ s) = "Bearer" ++ " " ++ s := by
    cases s
    rfl
  have hauth := authenticateJWT_accepts "Bearer" s t now (by decide) hdec hsec hexp
  rw [hb]
  refine ⟨hauth, ?_⟩
  rw [postWebtoonsRoute, hauth]

/-- C9, witness: the concrete token string `_.0.3600.my-secret-key`
decodes to a signed, unexpired token with no username in its payload,
passes the middleware, and the create operation stores the record. -/
theorem c9_payload_not_inspected_witness :
    authenticateJWT (some ("Bearer " ++ "_.0.3600.my-secret-key")) 0 =
      .proceed ⟨none⟩ ∧
    postWebtoonsRoute (some ("Bearer " ++ "_.0.3600.my-secret-key")) 0 [] "id1" "X" "Y"
        none =
      ([{ id := "id1", title := "X", description := "Y", characters := none }],
        .created { id := "id1", title := "X", description := "Y", characters := none }) :=
  c9_payload_not_inspected "_.0.3600.my-secret-key"
    { payload := ⟨none⟩, iat := 0, exp := 3600, secret := "my-secret-key" } 0
    (by decide) rfl (by decide) rfl [] "id1" "X" "Y" none

/-- C10: the credential store is append-only — `register` only ever
extends the `users` array at its end and `login` returns it untouched, so
every stored identity (username together with its hash) survives every
operation, and the set of registered usernames only grows. -/
theorem c10_store_append_only (users : List User) (U P : String) (salt now : Nat)
    (U2 P2 : String) (now2 : Nat) (u : User) (hu : u ∈ users) :
    (∃ tail, (register users U P salt now).1 = users ++ tail) ∧
    (login users U2 P2 now2).1 = users ∧
    u ∈ (register users U P salt now).1 ∧
    u ∈ (login users U2 P2 now2).1 := by
  have hlogin : (login users U2 P2 now2).1 = users := by
    rw [login]
    cases users.find? (fun x => x.username == U2) with
    | none => rfl
    | some user =>
      by_cases hb : bcryptCompare P2 user.password <;> simp [hb]
  have hreg : ∃ tail, (register users U P salt now).1 = users ++ tail := by
    rw [register]
    cases users.find? (fun x => x.username == U) with
    | some _ => exact ⟨[], by simp⟩
    | none => exact ⟨[{ username := U, password := bcryptHash P salt }], rfl⟩
  obtain ⟨tail, htail⟩ := hreg
  refine ⟨⟨tail, htail⟩, hlogin, ?_, ?_⟩
  · rw [htail]
    exact List.mem_append_left tail hu
  · rw [hlogin]
    exact hu

/-- C10, witness: the identity `"a"` stored with the hash of `"p"`
survives a registration of `"b"` and a login attempt. -/
theorem c10_store_append_only_witness :
    (∃ tail,
      (register [{ username := "a", password := bcryptHash "p" 0 }] "b" "q" 1 2).1 =
        [{ username := "a", password := bcryptHash "p" 0 }] ++ tail) ∧
    (login [{ username := "a", password := bcryptHash "p" 0 }] "a" "w" 3).1 =
      [{ username := "a", password := bcryptHash "p" 0 }] ∧
    { username := "a", password := bcryptHash "p" 0 } ∈
      (register [{ username := "a", password := bcryptHash "p" 0 }] "b" "q" 1 2).1 ∧
    { username := "a", password := bcryptHash "p" 0 } ∈
      (login [{ username := "a", password := bcryptHash "p" 0 }] "a" "w" 3).1 :=
  c10_store_append_only [{ username := "a", password := bcryptHash "p" 0 }] "b" "q" 1 2
    "a" "w" 3 { username := "a", password := bcryptHash "p" 0 } (by decide)

end WebtoonService
